import Mathlib

/-!
Shallow embedding of `pycalendar.py`: a generator of one-month PDF calendar
pages.  Pure layout and palette computations are translated to Lean functions
over `ℚ`; calls into the reportlab drawing surface are recorded as traces of
drawing events; Python exceptions become explicit error values.
-/

namespace PyCalendar

/-! ### Calendar math (Python `calendar` / `datetime`, proleptic Gregorian) -/

/-- `calendar.isleap`: leap years in the proleptic Gregorian calendar. -/
def isleap (y : Nat) : Bool :=
  y % 4 == 0 && (y % 100 != 0 || y % 400 == 0)

/-- `calendar.mdays`: day counts per month, index 0 unused, February as 28. -/
def mdays : List Nat := [0, 31, 28, 31, 30, 31, 30, 31, 31, 30, 31, 30, 31]

/-- Number of days in month `m` (1-12) of year `y`. -/
def days_in_month (y m : Nat) : Nat :=
  mdays.getD m 0 + (if m == 2 && isleap y then 1 else 0)

/-- Days in all years strictly before year `y` (year 1 is the first year). -/
def days_before_year (y : Nat) : Nat :=
  365 * (y - 1) + (y - 1) / 4 - (y - 1) / 100 + (y - 1) / 400

/-- Days in all months of year `y` strictly before month `m`. -/
def days_before_month (y m : Nat) : Nat :=
  ((List.range m).map (fun i => mdays.getD i 0)).sum
    + (if 2 < m && isleap y then 1 else 0)

/-- `datetime.date(y, m, d).weekday()`: 0 = Monday .. 6 = Sunday. -/
def weekday (y m d : Nat) : Nat :=
  (days_before_year y + days_before_month y m + d - 1) % 7

/-- `calendar.monthcalendar(y, m)` after `calendar.setfirstweekday(f)`:
a list of week rows, each a list of 7 day numbers, `0` for cells that fall
outside the month. -/
def monthcalendar (y m f : Nat) : List (List Nat) :=
  let lead := (weekday y m 1 + 7 - f % 7) % 7
  let n := days_in_month y m
  let nweeks := (lead + n + 6) / 7
  (List.range nweeks).map fun r =>
    (List.range 7).map fun c =>
      let idx := r * 7 + c
      if idx < lead || lead + n ≤ idx then 0 else idx - lead + 1

/-- `calendar.month_name`: localized month names, index 0 the empty string. -/
def month_name_list : List String :=
  ["", "January", "February", "March", "April", "May", "June", "July",
   "August", "September", "October", "November", "December"]

/-- `calendar.month_name[m]`. -/
def month_name (m : Nat) : String := month_name_list.getD m ""

/-! ### `colorsys.hls_to_rgb` (CPython), exact over `ℚ` -/

/-- CPython `colorsys._v(m1, m2, hue)`; `hue % 1.0` is `hue - ⌊hue⌋`. -/
def hls_v (m1 m2 hue : ℚ) : ℚ :=
  let hue : ℚ := hue - ⌊hue⌋
  if hue < 1/6 then m1 + (m2 - m1) * hue * 6
  else if hue < 1/2 then m2
  else if hue < 2/3 then m1 + (m2 - m1) * (2/3 - hue) * 6
  else m1

/-- CPython `colorsys.hls_to_rgb(h, l, s)`. -/
def hls_to_rgb (h l s : ℚ) : ℚ × ℚ × ℚ :=
  if s = 0 then (l, l, l)
  else
    let m2 := if l ≤ 1/2 then l * (1 + s) else l + s - l * s
    let m1 := 2 * l - m2
    (hls_v m1 m2 (h + 1/3), hls_v m1 m2 h, hls_v m1 m2 (h - 1/3))

/-! ### Data model -/

/-- A colour handed to reportlab: either a named colour string (the `"red"` /
`"white"` placeholders stored in page-level `Geom`s) or an RGB triple from
`colorsys.hls_to_rgb`. -/
inductive Colour where
  | named (s : String)
  | rgb (c : ℚ × ℚ × ℚ)
  deriving DecidableEq, Repr

/-- The namedtuple `Geom = (x, y, width, height, bg, col)`. -/
structure Geom where
  x : ℚ
  y : ℚ
  width : ℚ
  height : ℚ
  bg : Colour
  col : Colour
  deriving DecidableEq, Repr

/-- The namedtuple `Font = (name, size, pad, bold)`. -/
structure Font where
  name : String
  size : ℚ
  pad : ℚ
  bold : Bool
  deriving DecidableEq, Repr

/-- The namedtuple `Size = (width, height)`. -/
structure Size where
  width : ℚ
  height : ℚ
  deriving DecidableEq, Repr

/-- The dict returned by `generate_colours`. -/
structure Colours where
  cellBackground : ℚ × ℚ × ℚ
  cellText : ℚ × ℚ × ℚ
  titleBackground : ℚ × ℚ × ℚ
  titleText : ℚ × ℚ × ℚ
  deriving DecidableEq, Repr

/-- The `day` argument passed to a cell callback: either a Python string
(month title, weekday header, or the explicit `""` blank) or a day-of-month
integer (`0` for cells outside the month). -/
inductive Label where
  | str (s : String)
  | num (n : Nat)
  deriving DecidableEq, Repr

/-- Python truthiness of a `day` value: `0` and `""` are falsy. -/
def Label.falsy : Label → Bool
  | .str s => s == ""
  | .num n => n == 0

/-- Python `str(day)`. -/
def Label.toStr : Label → String
  | .str s => s
  | .num n => toString n

/-- `DAY_NAMES` from the source. -/
def DAY_NAMES : List String := ["M", "T", "W", "T", "F", "S", "S"]

/-- `USE_ORDINALS` from the source. -/
def USE_ORDINALS : Bool := false

/-- One invocation of the `cell_cb` callback by `add_calendar_page`,
recording the arguments `(day, rect, font, scale_factor)` (the canvas is the
trace itself). -/
structure CellCall where
  label : Label
  rect : Geom
  font : Font
  scale_factor : ℚ
  deriving DecidableEq, Repr

/-! ### `generate_colours` -/

/-- `generate_colours(hue)`: dict of colour shades from a single hue. -/
def generate_colours (hue : ℚ) : Colours where
  cellBackground := hls_to_rgb hue (90/100) 1
  cellText := hls_to_rgb hue (15/100) 1
  titleBackground := hls_to_rgb hue (15/100) 1
  titleText := hls_to_rgb hue (90/100) 1

/-! ### `add_calendar_page`

The function is effectful only through `cell_cb`; the embedding returns the
list of `cell_cb` invocations in call order (title, 7 weekday headers, the
day cells of each week row, then the conditional blank filler row).
`calendar.setfirstweekday(first_weekday)` followed by
`calendar.monthcalendar(...)` is modelled by passing `first_weekday` to
`monthcalendar` directly. -/

/-- `add_calendar_page(canvas, colours, rect, datetime_obj, cell_cb,
first_weekday)` for `datetime_obj` the first of month `month` of `year`. -/
def add_calendar_page (colours : Colours) (rect0 : Geom)
    (year month first_weekday : Nat) : List CellCall :=
  let cal := monthcalendar year month first_weekday
  let scale_factor := min rect0.width rect0.height
  let line_width := scale_factor * (25/10000)
  let rows : ℚ := 8
  let rect : Geom :=
    ⟨rect0.x + line_width, rect0.y + line_width,
     rect0.width - line_width * 2, rect0.height - line_width * 2,
     .named "red", .named "white"⟩
  let cellsize : Size := ⟨rect.width / 7, rect.height / rows⟩
  let monthFont : Font := ⟨"Helvetica", scale_factor * (60/1000), 5, true⟩
  let dayFont : Font := ⟨"Helvetica", scale_factor * (50/1000), 4, true⟩
  let mainFont : Font := ⟨"Helvetica", scale_factor * (90/1000), 7, true⟩
  let month_str := month_name month ++ " " ++ toString year
  let titleCell : CellCall :=
    ⟨.str month_str,
     ⟨rect.x, rect.y + rows * cellsize.height, cellsize.width * 7,
      cellsize.height, .rgb colours.titleBackground, .rgb colours.titleText⟩,
     monthFont, scale_factor⟩
  let headerCells : List CellCall :=
    DAY_NAMES.enum.map fun cd =>
      ⟨.str cd.2,
       ⟨rect.x + cellsize.width * cd.1, rect.y + (rows - 1) * cellsize.height,
        cellsize.width, cellsize.height,
        .rgb colours.cellBackground, .rgb colours.cellText⟩,
       dayFont, scale_factor⟩
  let dayCells : List CellCall :=
    cal.enum.flatMap fun rw =>
      rw.2.enum.map fun cd =>
        ⟨.num cd.2,
         ⟨rect.x + cellsize.width * cd.1,
          rect.y + (rows - rw.1 - 2) * cellsize.height,
          cellsize.width, cellsize.height,
          .rgb colours.cellBackground, .rgb colours.cellText⟩,
         mainFont, scale_factor⟩
  let lastRow : Nat := if cal.isEmpty then 0 else cal.length - 1
  let week : List Nat := cal.getLastD []
  let fillerCells : List CellCall :=
    if lastRow < 5 then
      let row : Nat := 5
      week.enum.map fun cd =>
        ⟨.str "",
         ⟨rect.x + cellsize.width * cd.1,
          rect.y + (rows - row - 2) * cellsize.height,
          cellsize.width, cellsize.height,
          .rgb colours.cellBackground, .rgb colours.cellText⟩,
         mainFont, scale_factor⟩
    else []
  titleCell :: (headerCells ++ dayCells ++ fillerCells)

/-! ### `draw_cell`

Canvas mutations are recorded as a trace of drawing events.  A Python
exception aborts the function but leaves the already-issued drawing calls on
the canvas, so the embedding returns the trace performed so far together
with an optional error. -/

/-- A Python exception raised by the program. -/
inductive PyErr where
  | typeError (msg : String)
  | valueError (msg : String)
  | notImplementedError (msg : String)
  deriving DecidableEq, Repr

/-- One drawing call on the reportlab canvas. -/
inductive DrawOp where
  | setFont (name : String) (size : ℚ)
  | setFillColor (c : Colour)
  | rect (x y width height : ℚ) (fill : Bool)
  | drawCentredString (x y : ℚ) (s : String)
  deriving DecidableEq, Repr

/-- `draw_cell(canvas, day, rect, font, scale_factor)`.  The module-level
`USE_ORDINALS` toggle is passed explicitly (the source value is the constant
`USE_ORDINALS`).  Returns the drawing calls issued and the exception raised,
if any. -/
def draw_cell (use_ordinals : Bool) (day : Label) (rect : Geom)
    (font : Font) : List DrawOp × Option PyErr :=
  let font_name := if font.bold then font.name ++ "-Bold" else font.name
  let ops : List DrawOp :=
    [.setFont font_name font.size,
     .setFillColor rect.bg,
     .rect rect.x (rect.y - rect.height) rect.width rect.height true,
     .setFillColor rect.col]
  if day.falsy then (ops, none)
  else
    let day := day.toStr
    if use_ordinals then
      (ops, some (.notImplementedError "ordinals not implemented yet"))
    else
      let text_x := rect.x + rect.width / 2
      let text_y := rect.y - rect.height / 2 - font.pad
      (ops ++ [.setFillColor rect.col, .drawCentredString text_x text_y day],
       none)

/-! ### `generate_pdf`

The `hue` argument is dynamically typed in Python.  The function calls
`len(hue)` first, so a scalar (such as the declared default `hue=0`) raises
`TypeError`.  The repository's own driver passes a numpy array
(`np.linspace(120, 330, 12)`); `HueArg.array` models a numpy `ndarray` of
hues.  In the `len(hue) == 1` branch the source sets `month_hue = hue` — the
whole singleton array — and every later operation (`month_hue > 1`, `/ 360`,
the `colorsys` arithmetic inside `generate_colours`) broadcasts elementwise
over that singleton, so the numbers rendered equal those computed from its
single element.  (A plain Python list would instead raise `TypeError` at
`month_hue > 1`; the embedding follows the ndarray semantics the program
uses.) -/

/-- The dynamically-typed `hue` argument of `generate_pdf`. -/
inductive HueArg where
  | scalar (q : ℚ)
  | array (qs : List ℚ)
  deriving DecidableEq, Repr

/-- The dynamically-typed value of `month_hue`: a Python/numpy scalar or a
numpy array. -/
inductive PyNum where
  | float (q : ℚ)
  | arr (qs : List ℚ)
  deriving DecidableEq, Repr

/-- The resolution of `month_hue` at the top of the loop body: `len(hue)`
(raising `TypeError` for an unsized scalar), then the 12 / 1 / error split.
In the 1 case the source keeps the whole array: `month_hue = hue`. -/
def resolve_month_hue (hue : HueArg) (month : Nat) : Except PyErr PyNum :=
  match hue with
  | .scalar _ => .error (.typeError "object of type int has no len()")
  | .array qs =>
    if qs.length = 12 then .ok (.float (qs.getD month 0))
    else if qs.length = 1 then .ok (.arr qs)
    else .error (.valueError "expect either 12 or 1 hues")

/-- `if month_hue > 1:` — numpy broadcasts the comparison; using the result
in `if` needs exactly one element, otherwise numpy raises `ValueError`. -/
def py_gt_one : PyNum → Except PyErr Bool
  | .float q => .ok (decide (1 < q))
  | .arr [q] => .ok (decide (1 < q))
  | .arr _ =>
    .error (.valueError "truth value of an array with more than one element is ambiguous")

/-- `month_hue = month_hue / 360` — numpy division broadcasts elementwise. -/
def py_div_360 : PyNum → PyNum
  | .float q => .float (q / 360)
  | .arr qs => .arr (qs.map (· / 360))

/-- The numeric content of `month_hue` after resolution: by then it is a
scalar or a singleton array, and a singleton numpy array broadcasts to its
single element in all the `colorsys` arithmetic of `generate_colours`. -/
def PyNum.scalar_value : PyNum → ℚ
  | .float q => q
  | .arr qs => qs.getD 0 0

/-- One saved output document: the file name, the palette passed to
`add_calendar_page`, and the cell-callback trace drawn on its canvas. -/
structure Doc where
  name : String
  colours : Colours
  cells : List CellCall
  deriving DecidableEq, Repr

/-- The month loop of `generate_pdf` over the remaining month indices.
Returns the documents saved so far and the exception that aborted the loop,
if any.  An exception is raised before that month's `Canvas` is created, so
the failing month contributes no document. -/
def run_months (year : Nat) (page_rect : Geom) (hue : HueArg)
    (first_weekday : Nat) : List Nat → List Doc × Option PyErr
  | [] => ([], none)
  | month :: rest =>
    match resolve_month_hue hue month with
    | .error e => ([], some e)
    | .ok mh =>
      match py_gt_one mh with
      | .error e => ([], some e)
      | .ok b =>
        let month_hue := if b then py_div_360 mh else mh
        let month_colours := generate_colours month_hue.scalar_value
        let file_name :=
          "cal-" ++ toString year ++ "-" ++ toString (month + 1) ++ ".pdf"
        let cells :=
          add_calendar_page month_colours page_rect year (month + 1)
            first_weekday
        let doc : Doc := ⟨file_name, month_colours, cells⟩
        let out := run_months year page_rect hue first_weekday rest
        (doc :: out.1, out.2)

/-- `generate_pdf(year_date, size, hue, first_weekday)` for `year_date` in
year `year`: margins of 1/50 of each page dimension, then one document per
month of the year, the page drawn by `add_calendar_page` with `draw_cell`
as the callback. -/
def generate_pdf (year : Nat) (size : Size) (hue : HueArg)
    (first_weekday : Nat) : List Doc × Option PyErr :=
  let page_size := size
  let wmar := page_size.width / 50
  let hmar := page_size.height / 50
  let size : Size :=
    ⟨page_size.width - 2 * wmar, page_size.height - 2 * hmar⟩
  run_months year ⟨wmar, hmar, size.width, size.height, .named "red",
    .named "white"⟩ hue first_weekday (List.range 12)

/-- The scalar normalization performed on each month's hue: values greater
than 1 are treated as degrees and divided by 360. -/
def normalize_hue (h : ℚ) : ℚ := if 1 < h then h / 360 else h

/-! ### Theorems about the claims -/

/-- The hue pipeline on a scalar `month_hue` equals `normalize_hue`. -/
theorem scalar_pipeline_float (q : ℚ) :
    (if 1 < q then py_div_360 (PyNum.float q)
     else PyNum.float q).scalar_value = normalize_hue q := by
  by_cases hq : 1 < q <;>
    simp [py_div_360, PyNum.scalar_value, normalize_hue, hq]

/-- The hue pipeline on a singleton-array `month_hue` equals
`normalize_hue` of its single element. -/
theorem scalar_pipeline_arr (q : ℚ) :
    (if 1 < q then py_div_360 (PyNum.arr [q])
     else PyNum.arr [q]).scalar_value = normalize_hue q := by
  by_cases hq : 1 < q <;>
    simp [py_div_360, PyNum.scalar_value, normalize_hue, hq]

/-- With a 12-element hue configuration, the month loop saves one document
per remaining month, month `m` using the palette of the normalized `m`-th
hue, and raises nothing. -/
theorem run_months_array12 (year : Nat) (pr : Geom) (qs : List ℚ) (fw : Nat)
    (h12 : qs.length = 12) :
    ∀ ms : List Nat,
      run_months year pr (.array qs) fw ms =
        (ms.map fun m =>
          (⟨"cal-" ++ toString year ++ "-" ++ toString (m + 1) ++ ".pdf",
            generate_colours (normalize_hue (qs.getD m 0)),
            add_calendar_page (generate_colours (normalize_hue (qs.getD m 0)))
              pr year (m + 1) fw⟩ : Doc),
         none)
  | [] => rfl
  | m :: rest => by
    have ih := run_months_array12 year pr qs fw h12 rest
    simp only [run_months, resolve_month_hue, h12, if_pos rfl, py_gt_one, ih]
    simp [scalar_pipeline_float]

/-- With a singleton hue configuration, the month loop saves one document
per remaining month, each using the palette of the normalized single hue,
and raises nothing. -/
theorem run_months_array1 (year : Nat) (pr : Geom) (q : ℚ) (fw : Nat) :
    ∀ ms : List Nat,
      run_months year pr (.array [q]) fw ms =
        (ms.map fun m =>
          (⟨"cal-" ++ toString year ++ "-" ++ toString (m + 1) ++ ".pdf",
            generate_colours (normalize_hue q),
            add_calendar_page (generate_colours (normalize_hue q))
              pr year (m + 1) fw⟩ : Doc),
         none)
  | [] => rfl
  | m :: rest => by
    have ih := run_months_array1 year pr q fw rest
    simp [run_months, resolve_month_hue, py_gt_one, ih, scalar_pipeline_arr]

/-- Claim C8: with a singleton hue configuration every month's document
carries the identical palette derived from that hue (and all 12 documents
are produced without error); with a 12-element configuration, month `m`
(0-based) carries the palette derived from exactly the `m`-th hue. -/
theorem claim_C8 (year : Nat) (size : Size) (fw : Nat) (h : ℚ)
    (qs : List ℚ) (m : Nat) (h12 : qs.length = 12) (hm : m < 12) :
    (∀ d ∈ (generate_pdf year size (.array [h]) fw).1,
       d.colours = generate_colours (normalize_hue h)) ∧
    (generate_pdf year size (.array [h]) fw).1.length = 12 ∧
    (generate_pdf year size (.array [h]) fw).2 = none ∧
    ((generate_pdf year size (.array qs) fw).1.map Doc.colours)[m]? =
      some (generate_colours (normalize_hue (qs.getD m 0))) := by
  refine ⟨?_, ?_, ?_, ?_⟩
  · intro d hd
    rw [generate_pdf, run_months_array1] at hd
    simp only [List.mem_map, List.mem_range] at hd
    obtain ⟨i, _, rfl⟩ := hd
    rfl
  · rw [generate_pdf, run_months_array1]
    simp
  · rw [generate_pdf, run_months_array1]
  · rw [generate_pdf, run_months_array12 _ _ _ _ h12]
    simp [List.getElem?_map, List.getElem?_range, hm]

/-- Witness for C8 at a concrete single hue and 12-hue configuration. -/
theorem claim_C8_witness :
    ([(0:ℚ), 1, 2, 3, 4, 5, 6, 7, 8, 9, 10, 11].length = 12) ∧ (0 < 12) ∧
    ((generate_pdf 2024 ⟨100, 100⟩
        (.array [0, 1, 2, 3, 4, 5, 6, 7, 8, 9, 10, 11]) 0).1.map
      Doc.colours)[0]? =
      some (generate_colours
        (normalize_hue ([(0:ℚ), 1, 2, 3, 4, 5, 6, 7, 8, 9, 10, 11].getD 0 0))) :=
  ⟨by decide, by decide,
   (claim_C8 2024 ⟨100, 100⟩ 0 (1/2)
     [0, 1, 2, 3, 4, 5, 6, 7, 8, 9, 10, 11] 0 (by decide) (by decide)).2.2.2⟩

/-- Claim C3: a month hue greater than 1 is normalized to `h / 360` before
palette derivation, and a hue configuration given in degrees produces
exactly the same documents (palettes, file names, and all cell rendering
calls) as the equivalent fractional configuration. -/
theorem claim_C3 (year : Nat) (size : Size) (fw : Nat) (h : ℚ)
    (hgt : 1 < h) (hle : h ≤ 360) :
    normalize_hue h = h / 360 ∧
    generate_pdf year size (.array [h]) fw =
      generate_pdf year size (.array [h / 360]) fw := by
  have hnorm : normalize_hue h = h / 360 := by
    simp [normalize_hue, hgt]
  have hfrac : normalize_hue (h / 360) = h / 360 := by
    have : ¬ (1 < h / 360) := by
      rw [not_lt]
      rw [div_le_one (by norm_num)]
      exact hle
    simp [normalize_hue, this]
  refine ⟨hnorm, ?_⟩
  rw [generate_pdf, generate_pdf, run_months_array1, run_months_array1,
    hnorm, hfrac]

/-- Witness for C3 at the degree hue 180 (equivalent fraction 1/2). -/
theorem claim_C3_witness :
    ((1:ℚ) < 180) ∧ ((180:ℚ) ≤ 360) ∧ normalize_hue 180 = 180 / 360 :=
  ⟨by norm_num, by norm_num,
   (claim_C3 2024 ⟨100, 100⟩ 0 180 (by norm_num) (by norm_num)).1⟩

/-- Claim C7: `add_calendar_page` computes the stroke inset
`min(width, height) * 0.0025`, shrinks the rectangle by it on all four
edges, and sizes cells as one seventh by one eighth of the shrunken
rectangle: the first callback (the title) starts at the inset corner and is
7 cells wide and 1 cell tall, and every other cell is exactly one cell wide
and one cell tall. -/
theorem claim_C7 (colours : Colours) (rect : Geom) (year month fw : Nat)
    (hw : 0 < rect.width) (hh : 0 < rect.height) :
    let lw := min rect.width rect.height * (25/10000)
    let cw := (rect.width - lw * 2) / 7
    let ch := (rect.height - lw * 2) / 8
    ((add_calendar_page colours rect year month fw).head?.map
        fun c => (c.rect.x, c.rect.y, c.rect.width, c.rect.height)) =
      some (rect.x + lw, rect.y + lw + 8 * ch, cw * 7, ch) ∧
    ∀ c ∈ add_calendar_page colours rect year month fw,
      c.rect.height = ch ∧ (c.rect.width = cw ∨ c.rect.width = cw * 7) := by
  refine ⟨rfl, ?_⟩
  intro c hc
  simp only [add_calendar_page] at hc
  rw [List.mem_cons] at hc
  rcases hc with rfl | hc
  · exact ⟨rfl, Or.inr rfl⟩
  rw [List.mem_append] at hc
  rcases hc with hc | hc
  · rw [List.mem_append] at hc
    rcases hc with hc | hc
    · rw [List.mem_map] at hc
      obtain ⟨cd, _, rfl⟩ := hc
      exact ⟨rfl, Or.inl rfl⟩
    · rw [List.mem_flatMap] at hc
      obtain ⟨rowweek, _, hc⟩ := hc
      rw [List.mem_map] at hc
      obtain ⟨cd, _, rfl⟩ := hc
      exact ⟨rfl, Or.inl rfl⟩
  · split at hc <;> split at hc <;>
      first
        | exact absurd hc (List.not_mem_nil c)
        | (rw [List.mem_map] at hc
           obtain ⟨cd, _, rfl⟩ := hc
           exact ⟨rfl, Or.inl rfl⟩)

/-- Witness for C7 at a concrete page rectangle and month. -/
theorem claim_C7_witness :
    (0:ℚ) < 2800 ∧ (0:ℚ) < 3200 ∧
    ∀ c ∈ add_calendar_page (generate_colours (1/2))
        ⟨0, 0, 2800, 3200, .named "red", .named "white"⟩ 2024 1 0,
      c.rect.height = (3200 - min (2800:ℚ) 3200 * (25/10000) * 2) / 8 ∧
      (c.rect.width = (2800 - min (2800:ℚ) 3200 * (25/10000) * 2) / 7 ∨
       c.rect.width = ((2800 - min (2800:ℚ) 3200 * (25/10000) * 2) / 7) * 7) :=
  ⟨by norm_num, by norm_num,
   (claim_C7 (generate_colours (1/2))
     ⟨0, 0, 2800, 3200, .named "red", .named "white"⟩ 2024 1 0
     (by norm_num) (by norm_num)).2⟩

/-- Claim C1 (evidence of the code bug): for February 2021 with a Monday
week start — a month whose matrix has only 4 week rows — `add_calendar_page`
issues 43 cell callbacks (1 title + 7 headers + 28 day cells + one blank
filler row of 7), not the 1 + 7 + 42 = 50 the uniform-geometry claim
requires: the filler fills only the row at index 5, so the row at index 4
(the y-band `rect.y + lw + 2 * cellheight`) receives no cell at all and is
left as a gap. -/
theorem claim_C1_eval :
    ((add_calendar_page (generate_colours (1/2))
        ⟨0, 0, 2800, 3200, .named "red", .named "white"⟩ 2021 2 0).length
      = 43) ∧
    (43 ≠ 1 + 7 + 42) ∧
    (((add_calendar_page (generate_colours (1/2))
        ⟨0, 0, 2800, 3200, .named "red", .named "white"⟩ 2021 2 0).filter
      fun c => decide (c.label = Label.str "")).length = 7) ∧
    ∀ c ∈ add_calendar_page (generate_colours (1/2))
        ⟨0, 0, 2800, 3200, .named "red", .named "white"⟩ 2021 2 0,
      c.rect.y ≠ 1607/2 := by
  refine ⟨by decide, by decide, by decide, ?_⟩
  intro c hc
  simp only [add_calendar_page,
    show monthcalendar 2021 2 0 =
      [[1, 2, 3, 4, 5, 6, 7], [8, 9, 10, 11, 12, 13, 14],
       [15, 16, 17, 18, 19, 20, 21], [22, 23, 24, 25, 26, 27, 28]]
      from by decide,
    DAY_NAMES, List.enum, List.enumFrom, List.flatMap_cons, List.flatMap_nil,
    List.map_cons, List.map_nil, List.cons_append, List.nil_append,
    List.isEmpty_cons, List.length_cons, List.length_nil,
    List.getLastD_eq_getLast?, List.getLast?_concat] at hc
  fin_cases hc <;> norm_num

/-- Claim C4: for every hue `h` in `[0,1]`, `generate_colours h` sets
`cellBackground` and `titleText` to the hue at lightness 0.90 and full
saturation, `cellText` and `titleBackground` to the hue at lightness 0.15
and full saturation; so `cellBackground = titleText`,
`cellText = titleBackground`, all four colours are derived from the same
hue `h`, and the cell pair and title pair are lightness-inverted versions
of each other. -/
theorem claim_C4 (h : ℚ) (h0 : 0 ≤ h) (h1 : h ≤ 1) :
    generate_colours h =
      ⟨hls_to_rgb h (90/100) 1, hls_to_rgb h (15/100) 1,
       hls_to_rgb h (15/100) 1, hls_to_rgb h (90/100) 1⟩ ∧
    (generate_colours h).cellBackground = (generate_colours h).titleText ∧
    (generate_colours h).cellText = (generate_colours h).titleBackground :=
  ⟨rfl, rfl, rfl⟩

/-- Witness for C4 at the concrete hue 1/2. -/
theorem claim_C4_witness :
    (0:ℚ) ≤ 1/2 ∧ (1/2:ℚ) ≤ 1 ∧
    (generate_colours (1/2)).cellBackground =
      (generate_colours (1/2)).titleText :=
  ⟨by norm_num, by norm_num,
   (claim_C4 (1/2) (by norm_num) (by norm_num)).2.1⟩

/-- Claim C5: with the source's `USE_ORDINALS` setting, `draw_cell` on a
falsy label (day number 0 or the empty string) issues exactly the font
selection, the background fill colour, the filled rectangle spanning
`[rect.x, rect.x + width] × [rect.y - height, rect.y]`, and the switch to
the text colour — no text; on a truthy label it additionally draws the
label centred at `x = rect.x + width/2`,
`y = rect.y - height/2 - font.pad`. -/
theorem claim_C5 (day : Label) (rect : Geom) (font : Font) :
    draw_cell USE_ORDINALS day rect font =
      (let fn := if font.bold then font.name ++ "-Bold" else font.name
       let background :=
         [DrawOp.setFont fn font.size, DrawOp.setFillColor rect.bg,
          DrawOp.rect rect.x (rect.y - rect.height) rect.width rect.height
            true,
          DrawOp.setFillColor rect.col]
       if day.falsy then (background, none)
       else
         (background ++
           [DrawOp.setFillColor rect.col,
            DrawOp.drawCentredString (rect.x + rect.width / 2)
              (rect.y - rect.height / 2 - font.pad) day.toStr], none)) := by
  cases hf : day.falsy <;> simp [draw_cell, USE_ORDINALS, hf]

/-- Claim C6: with the ordinal feature enabled, `draw_cell` on a non-zero
day raises `NotImplementedError` and never draws centred text; with the
feature disabled no error is raised for any input. -/
theorem claim_C6 (n : Nat) (rect : Geom) (font : Font) (hn : n ≠ 0) :
    (draw_cell true (.num n) rect font).2 =
      some (.notImplementedError "ordinals not implemented yet") ∧
    (∀ x y s,
      DrawOp.drawCentredString x y s ∉ (draw_cell true (.num n) rect font).1) ∧
    (∀ (day : Label) (r : Geom) (f : Font),
      (draw_cell false day r f).2 = none) := by
  have hfal : (Label.num n).falsy = false := by
    simp [Label.falsy, hn]
  refine ⟨by simp [draw_cell, hfal], ?_, ?_⟩
  · intro x y s
    simp [draw_cell, hfal]
  · intro day r f
    cases hd : day.falsy <;> simp [draw_cell, hd]

/-- Witness for C6 at day 1 and a concrete cell. -/
theorem claim_C6_witness :
    (1 : Nat) ≠ 0 ∧
    (draw_cell true (.num 1) ⟨0, 0, 10, 10, .named "red", .named "white"⟩
      ⟨"Helvetica", 5, 4, true⟩).2 =
      some (.notImplementedError "ordinals not implemented yet") :=
  ⟨by decide,
   (claim_C6 1 ⟨0, 0, 10, 10, .named "red", .named "white"⟩
     ⟨"Helvetica", 5, 4, true⟩ (by decide)).1⟩

/-- Claim C10: with the ordinal feature enabled and a non-zero day, the
`NotImplementedError` is raised only after the font has been set, the
background rectangle filled, and the fill colour switched to the text
colour: the trace on the error path is exactly those four canvas calls. -/
theorem claim_C10 (n : Nat) (rect : Geom) (font : Font) (hn : n ≠ 0) :
    draw_cell true (.num n) rect font =
      ([DrawOp.setFont
          (if font.bold then font.name ++ "-Bold" else font.name) font.size,
        DrawOp.setFillColor rect.bg,
        DrawOp.rect rect.x (rect.y - rect.height) rect.width rect.height true,
        DrawOp.setFillColor rect.col],
       some (.notImplementedError "ordinals not implemented yet")) := by
  have hfal : (Label.num n).falsy = false := by
    simp [Label.falsy, hn]
  simp [draw_cell, hfal]

/-- Witness for C10 at day 5 and a concrete cell. -/
theorem claim_C10_witness :
    (5 : Nat) ≠ 0 ∧
    draw_cell true (.num 5) ⟨1, 2, 30, 40, .named "red", .named "white"⟩
      ⟨"Helvetica", 5, 4, false⟩ =
      ([DrawOp.setFont "Helvetica" 5,
        DrawOp.setFillColor (.named "red"),
        DrawOp.rect 1 (2 - 40) 30 40 true,
        DrawOp.setFillColor (.named "white")],
       some (.notImplementedError "ordinals not implemented yet")) :=
  ⟨by decide,
   claim_C10 5 ⟨1, 2, 30, 40, .named "red", .named "white"⟩
     ⟨"Helvetica", 5, 4, false⟩ (by decide)⟩

/-- Claim C9: `generate_pdf` calls `len(hue)` before any other use of the
hue argument, so a scalar hue — including the declared default `hue=0` —
raises `TypeError` on the first month iteration and no document is
produced. -/
theorem claim_C9 (year : Nat) (size : Size) (q : ℚ) (fw : Nat) :
    generate_pdf year size (.scalar q) fw =
      ([], some (.typeError "object of type int has no len()")) := rfl

/-- Claim C2: a hue configuration whose element count is neither 1 nor 12
makes `generate_pdf` stop with `ValueError` on the first month iteration,
before any canvas is created: no document at all is produced. -/
theorem claim_C2 (year : Nat) (size : Size) (qs : List ℚ) (fw : Nat)
    (h12 : qs.length ≠ 12) (h1 : qs.length ≠ 1) :
    generate_pdf year size (.array qs) fw =
      ([], some (.valueError "expect either 12 or 1 hues")) := by
  rw [generate_pdf,
    show List.range 12 = 0 :: [1, 2, 3, 4, 5, 6, 7, 8, 9, 10, 11] from rfl]
  simp [run_months, resolve_month_hue, h12, h1]

/-- Witness for C2 with a 2-element hue configuration. -/
theorem claim_C2_witness :
    ([(0:ℚ), 0].length ≠ 12) ∧ ([(0:ℚ), 0].length ≠ 1) ∧
    generate_pdf 2024 ⟨100, 100⟩ (.array [0, 0]) 0 =
      ([], some (.valueError "expect either 12 or 1 hues")) :=
  ⟨by decide, by decide,
   claim_C2 2024 ⟨100, 100⟩ [0, 0] 0 (by decide) (by decide)⟩

end PyCalendar
